import Mathlib

/-!
Shallow embedding of the lotus-weather client (cache, error classifier,
fallback orchestrator, OpenWeather provider normalization/aggregation),
together with theorems settling the behavioural claims about it.

JS numbers are modelled as exact rationals (`ℚ`) and integer timestamps as
`ℤ`; caught JS exceptions are modelled as a small sum type recording the
fields the code inspects (`response.status`, `code`, `request`,
`instanceof` facts and the message).
-/

namespace LotusWeather

/-! ### JS-semantics helpers -/

/-- JS `Math.round`: round half toward positive infinity. -/
def jsRound (q : ℚ) : ℤ := (q + 1/2).floor

/-- `Math.round(x * 10) / 10`: round to one decimal place. -/
def round1 (q : ℚ) : ℚ := (jsRound (q * 10) : ℚ) / 10

theorem jsRound_eq_floor (q : ℚ) : jsRound q = ⌊q + 1/2⌋ := by
  rw [jsRound, Rat.floor_def, Rat.floor_def']

/-- Does the character list `s` start with the pattern `p`? -/
def strStarts : List Char → List Char → Bool
  | _, [] => true
  | [], _ :: _ => false
  | a :: s, b :: p => a == b && strStarts s p

/-- Does the pattern occur anywhere in the character list? -/
def strFindSub : List Char → List Char → Bool
  | [], pat => pat.isEmpty
  | a :: s, pat => strStarts (a :: s) pat || strFindSub s pat

/-- JS `String.prototype.includes`. -/
def jsIncludes (s pat : String) : Bool := strFindSub s.data pat.data

/-! ### Error model

A caught JS value, as inspected by `isTransientError` and `wrapError`.
`response = some st` models a truthy `error.response` whose `status` field is
`st` (`none` inside means `status` is absent); outer `none` models an absent
or falsy `response`. `hasRequest` models `"request" in error`. -/

structure ErrObj where
  isError : Bool
  isWeatherError : Bool
  message : String
  response : Option (Option Nat)
  code : Option String
  hasRequest : Bool
deriving DecidableEq

inductive Caught where
  | obj (e : ErrObj)
  | nonObject
deriving DecidableEq

/-- The single error kind surfaced to callers (`class WeatherError`);
only the message is observable in the claims. -/
structure WeatherError where
  message : String
deriving DecidableEq

/-- The transient network codes listed in `isTransientError`. -/
def transientCodes : List String :=
  ["ECONNREFUSED", "ECONNRESET", "ETIMEDOUT", "ENOTFOUND", "ENETUNREACH", "EAI_AGAIN"]

/-- The decision taken inside the `if ("response" in error && error.response)`
block of `isTransientError`: `some b` means an early return with `b`,
`none` means control falls through. -/
def respDecision : Option (Option Nat) → Option Bool
  | none => none
  | some none => none
  | some (some s) =>
    if s = 429 ∨ (s ≠ 0 ∧ 500 ≤ s ∧ s < 600) then some true
    else if s ≠ 0 ∧ 400 ≤ s ∧ s < 500 then some false
    else none

/-- The network-code check of `isTransientError`. -/
def codeTransient : Option String → Bool
  | some c => transientCodes.contains c
  | none => false

/-- Translation of `isTransientError` (src errors module, lines 29-71). -/
def isTransientError : Caught → Bool
  | .nonObject => false
  | .obj e =>
    match respDecision e.response with
    | some b => b
    | none =>
      if codeTransient e.code then true
      else if e.hasRequest ∧ e.response = none then true
      else false

/-- The status carried by a truthy `error.response`, if any. -/
def respStatus (e : ErrObj) : Option Nat :=
  match e.response with
  | some (some s) => some s
  | _ => none

/-- `status && status >= 500` on the optional response status. -/
def statusAtLeast500 : Option Nat → Bool
  | some s => s != 0 && decide (500 ≤ s)
  | none => false

/-- Translation of `LotusWeather.wrapError` (orchestrator, lines 226-270). -/
def wrapError (err : Caught) (context : String) : WeatherError :=
  match err with
  | .nonObject => ⟨context ++ (": Unknown error occurred")⟩
  | .obj e =>
    if e.isWeatherError then ⟨e.message⟩
    else if e.isError then
      if jsIncludes e.message ("City not found") then ⟨e.message⟩
      else if respStatus e = some 401 then ⟨("Invalid API key")⟩
      else if respStatus e = some 404 then ⟨("City not found")⟩
      else if respStatus e = some 429 then ⟨("Rate limit exceeded")⟩
      else if statusAtLeast500 (respStatus e) then ⟨("Provider service unavailable")⟩
      else if e.code = some ("ECONNREFUSED") ∨ e.code = some ("ENOTFOUND") then
        ⟨("Unable to connect to weather service")⟩
      else if e.code = some ("ETIMEDOUT") then ⟨("Request timed out")⟩
      else ⟨context ++ (": ") ++ e.message⟩
    else ⟨context ++ (": Unknown error occurred")⟩

/-! ### Fallback orchestration -/

inductive ProviderTag where
  | primary
  | fallback
deriving DecidableEq

/-- Translation of `LotusWeather.executeWithFallback` (orchestrator, lines
196-221).  The operation is modelled as a function from the provider chosen
to the outcome of awaiting it; the returned list records, in order, the
providers that were actually invoked. -/
def executeWithFallback {T : Type} (hasFallback : Bool)
    (op : ProviderTag → Except Caught T) (providerName : String) :
    Except WeatherError T × List ProviderTag :=
  match op .primary with
  | .ok v => (.ok v, [.primary])
  | .error e =>
    if !hasFallback then (.error (wrapError e providerName), [.primary])
    else if !(isTransientError e) then (.error (wrapError e providerName), [.primary])
    else
      match op .fallback with
      | .ok v => (.ok v, [.primary, .fallback])
      | .error _ => (.error (wrapError e providerName), [.primary, .fallback])

/-! ### Claim C2 -/

/-- C2: for every request where the primary provider fails with a transient
error and a fallback is configured, the fallback provider is attempted
exactly once, and if that fallback attempt also fails, the error raised to
the caller is the wrapped original primary error, not the fallback one. -/
theorem C2_fallback_once_original_error {T : Type}
    (op : ProviderTag → Except Caught T) (name : String) (e : Caught)
    (hp : op .primary = .error e) (ht : isTransientError e = true) :
    (executeWithFallback true op name).2.count .fallback = 1 ∧
    (∀ e₂, op .fallback = .error e₂ →
      (executeWithFallback true op name).1 = .error (wrapError e name)) := by
  have key : executeWithFallback true op name =
      match op .fallback with
      | .ok v => (.ok v, [.primary, .fallback])
      | .error _ => (.error (wrapError e name), [.primary, .fallback]) := by
    unfold executeWithFallback
    rw [hp]
    simp [ht]
  cases hf : op .fallback with
  | ok v =>
    rw [key, hf]
    exact ⟨rfl, by intro e₂ h; cases h⟩
  | error e₂ =>
    rw [key, hf]
    exact ⟨rfl, fun _ _ => rfl⟩

def c2PrimaryErr : Caught :=
  .obj ⟨true, false, "Request failed with status code 500", some (some 500), none, true⟩

def c2Op : ProviderTag → Except Caught Nat
  | .primary => .error c2PrimaryErr
  | .fallback =>
    .error (.obj ⟨true, false, "Request failed with status code 503", some (some 503), none, true⟩)

/-- C2 witness: a concrete primary 500 failure with a failing fallback. -/
theorem C2_witness :
    (executeWithFallback true c2Op ("getCurrentWeather")).2.count .fallback = 1 ∧
    (executeWithFallback true c2Op ("getCurrentWeather")).1 =
      .error (wrapError c2PrimaryErr ("getCurrentWeather")) := by
  have h := C2_fallback_once_original_error c2Op ("getCurrentWeather") c2PrimaryErr rfl (by decide)
  exact ⟨h.1, h.2 _ rfl⟩

/-! ### Claim C3 -/

/-- C3 (amended): when the primary provider fails with HTTP status 404 and a
fallback is configured, the fallback provider is never invoked; but the
raised message is exactly "City not found", without the caller's input
(the input appears only when the primary error message itself already
contains "City not found", as with geocoding failures). -/
theorem C3_notFound_no_fallback {T : Type}
    (op : ProviderTag → Except Caught T) (name : String) (e : ErrObj)
    (hp : op .primary = .error (.obj e)) (h404 : e.response = some (some 404))
    (hw : e.isWeatherError = false) (hie : e.isError = true)
    (hmsg : jsIncludes e.message ("City not found") = false) :
    (executeWithFallback true op name).2.count .fallback = 0 ∧
    (executeWithFallback true op name).1 = .error ⟨("City not found")⟩ := by
  have htrans : isTransientError (.obj e) = false := by
    simp [isTransientError, respDecision, h404]
  have hwrap : wrapError (.obj e) name = ⟨("City not found")⟩ := by
    simp [wrapError, respStatus, h404, hw, hie, hmsg]
  have key : executeWithFallback true op name =
      (.error (wrapError (.obj e) name), [.primary]) := by
    unfold executeWithFallback
    rw [hp]
    simp [htrans]
  rw [key, hwrap]
  exact ⟨rfl, rfl⟩

def c3Err : ErrObj :=
  ⟨true, false, "Request failed with status code 404", some (some 404), none, true⟩

def c3Op : ProviderTag → Except Caught Nat
  | .primary => .error (.obj c3Err)
  | .fallback => .ok 0

/-- C3 counterexample: primary fails with HTTP 404 on a request for city
"London"; the raised message is "City not found", not the claimed shape
"City not found: London" containing the input. -/
theorem C3_counterexample :
    (executeWithFallback true c3Op ("getCurrentWeather")).1 = .error ⟨("City not found")⟩ ∧
    (WeatherError.mk ("City not found")) ≠ ⟨("City not found: London")⟩ := by
  constructor
  · rfl
  · decide

/-- C3 witness for the amended statement. -/
theorem C3_witness :
    (executeWithFallback true c3Op ("getCurrentWeather")).2.count .fallback = 0 ∧
    (executeWithFallback true c3Op ("getCurrentWeather")).1 = .error ⟨("City not found")⟩ :=
  C3_notFound_no_fallback c3Op ("getCurrentWeather") c3Err rfl rfl rfl rfl (by decide)

/-! ### Claim C4 -/

/-- `lo <= status < hi` on an optional response status. -/
def statusIn (st : Option Nat) (lo hi : Nat) : Bool :=
  match st with
  | some s => decide (lo ≤ s) && decide (s < hi)
  | none => false

/-- Classifier transcribed from the claim's rules 1-5, in priority order,
to be compared with the implementation `isTransientError`:
429/5xx transient; other 4xx permanent; transport-failure code with no
response transient; request sent with no response and no structured code
transient; everything else permanent. -/
def claimTransient : Caught → Bool
  | .nonObject => false
  | .obj e =>
    if respStatus e == some 429 || statusIn (respStatus e) 500 600 then true
    else if statusIn (respStatus e) 400 500 then false
    else if e.response == none && codeTransient e.code then true
    else if e.hasRequest && e.response == none && e.code == none then true
    else false

/-- The classification actually implemented: as the claim, except that a
transport-failure code classifies transient even alongside an unclassified
response, and a request sent with no truthy response classifies transient
regardless of any structured code. -/
def amendedTransient : Caught → Bool
  | .nonObject => false
  | .obj e =>
    if respStatus e == some 429 || statusIn (respStatus e) 500 600 then true
    else if statusIn (respStatus e) 400 500 then false
    else if codeTransient e.code then true
    else if e.hasRequest && e.response == none then true
    else false

def c4Err : Caught := .obj ⟨true, false, "canceled", none, some ("ERR_CANCELED"), true⟩

/-- C4 counterexample: an error with `request` present, no response, and the
structured non-transport code "ERR_CANCELED".  The claim's rules classify it
permanent (rule 4 requires no structured code; rule 5 catches it), but the
implementation classifies it transient. -/
theorem C4_counterexample :
    isTransientError c4Err = true ∧ claimTransient c4Err = false := by
  decide

/-- C4 (amended): the implemented classifier agrees with the claim's rules
amended in rules 3-4: any transport-failure code is transient once the
status rules did not fire, and a request sent without a truthy response is
transient regardless of the structured code. -/
theorem C4_amended_classifier (err : Caught) :
    isTransientError err = amendedTransient err := by
  cases err with
  | nonObject => rfl
  | obj e =>
    obtain ⟨ie, iw, msg, resp, code, req⟩ := e
    match resp with
    | none =>
      simp [isTransientError, amendedTransient, respDecision, respStatus, statusIn]
    | some none =>
      simp [isTransientError, amendedTransient, respDecision, respStatus, statusIn]
    | some (some s) =>
      simp only [isTransientError, amendedTransient, respDecision, respStatus, statusIn,
        Bool.or_eq_true, Bool.and_eq_true, beq_iff_eq, decide_eq_true_eq,
        Option.some.injEq, reduceCtorEq, and_false, if_false]
      split_ifs <;> try rfl
      all_goals omega

/-! ### TTL cache -/

/-- Code points treated as whitespace by JS `String.prototype.trim`. -/
def jsIsSpace (c : Char) : Bool :=
  decide (c.toNat = 9 ∨ c.toNat = 10 ∨ c.toNat = 11 ∨ c.toNat = 12 ∨ c.toNat = 13
    ∨ c.toNat = 32 ∨ c.toNat = 160 ∨ c.toNat = 5760 ∨ (8192 ≤ c.toNat ∧ c.toNat ≤ 8202)
    ∨ c.toNat = 8232 ∨ c.toNat = 8233 ∨ c.toNat = 8239 ∨ c.toNat = 8287
    ∨ c.toNat = 12288 ∨ c.toNat = 65279)

/-- JS `String.prototype.trim`: strip whitespace from both ends. -/
def jsTrim (s : String) : String :=
  ⟨((s.data.dropWhile jsIsSpace).reverse.dropWhile jsIsSpace).reverse⟩

/-- Lower-casing of one character as performed on the code points exercised
by this code base (ASCII letters). -/
def jsLowerChar (c : Char) : Char :=
  if 65 ≤ c.toNat ∧ c.toNat ≤ 90 then Char.ofNat (c.toNat + 32) else c

/-- JS `String.prototype.toLowerCase`. -/
def jsToLowerCase (s : String) : String :=
  ⟨s.data.map jsLowerChar⟩

/-- Cache categories (`CacheKeyType`). -/
inductive CacheKeyType where
  | current
  | forecast
  | geocoding
deriving DecidableEq

/-- Translation of `Cache.createKey` (src/cache.ts, lines 60-71).  The
`method` argument is kept as a plain string exactly as it is joined into the
key.  `options` models the optional fourth argument; the emptiness test
mirrors the JS truthiness of `if (options)`. -/
def createKey (provider method location : String) (options : Option String) : String :=
  let parts := [provider, method, jsTrim (jsToLowerCase location)]
  let parts :=
    match options with
    | some o => if o ≠ "" then parts ++ [o] else parts
    | none => parts
  String.intercalate (":") parts

structure CacheEntry (V : Type) where
  value : V
  expiresAt : Int
deriving DecidableEq

/-- The JS `Map` backing the cache, as an association list in insertion
order, together with the per-category TTLs fixed at construction. -/
structure Cache (V : Type) where
  store : List (String × CacheEntry V)
  ttlCurrent : Int
  ttlForecast : Int
  ttlGeocoding : Int
deriving DecidableEq

/-- `Map.prototype.get`. -/
def storeGet {V : Type} : List (String × CacheEntry V) → String → Option (CacheEntry V)
  | [], _ => none
  | (k, e) :: rest, key => if k = key then some e else storeGet rest key

/-- `Map.prototype.delete` (drops the entry for the key, if any). -/
def storeDelete {V : Type} : List (String × CacheEntry V) → String → List (String × CacheEntry V)
  | [], _ => []
  | (k, e) :: rest, key => if k = key then rest else (k, e) :: storeDelete rest key

/-- `Map.prototype.set`: overwrite in place if the key exists, else append. -/
def storeSet {V : Type} : List (String × CacheEntry V) → String → CacheEntry V →
    List (String × CacheEntry V)
  | [], key, e => [(key, e)]
  | (k, e₀) :: rest, key, e => if k = key then (k, e) :: rest else (k, e₀) :: storeSet rest key e

namespace Cache

/-- Translation of `Cache.get` (src/cache.ts, lines 76-89), with the current
clock passed explicitly for `Date.now()`.  Returns the looked-up value (if
present and unexpired) together with the cache state after the lazy
eviction.  The embedding is a total function: lookup never raises. -/
def get {V : Type} (c : Cache V) (key : String) (now : Int) : Option V × Cache V :=
  match storeGet c.store key with
  | none => (none, c)
  | some entry =>
    if now > entry.expiresAt then
      (none, { c with store := storeDelete c.store key })
    else
      (some entry.value, c)

/-- The TTL selected by `this.ttl[type]`. -/
def ttlFor {V : Type} (c : Cache V) : CacheKeyType → Int
  | .current => c.ttlCurrent
  | .forecast => c.ttlForecast
  | .geocoding => c.ttlGeocoding

/-- Translation of `Cache.set` (src/cache.ts, lines 97-103). -/
def set {V : Type} (c : Cache V) (key : String) (v : V) (t : CacheKeyType) (now : Int) :
    Cache V :=
  { c with store := storeSet c.store key ⟨v, now + ttlFor c t⟩ }

end Cache

/-! ### Claim C7 -/

/-- C7: `Cache.get` returns the stored value when an entry exists and
`now <= expiresAt`; otherwise it deletes any expired entry for the key and
returns absent; a miss leaves the store untouched.  (The embedding of
`Cache.get` is a total function, so lookup never raises.) -/
theorem cache_get_spec {V : Type} (c : Cache V) (key : String) (now : Int) :
    (∀ e, storeGet c.store key = some e → now ≤ e.expiresAt →
      Cache.get c key now = (some e.value, c)) ∧
    (∀ e, storeGet c.store key = some e → e.expiresAt < now →
      Cache.get c key now = (none, { c with store := storeDelete c.store key })) ∧
    (storeGet c.store key = none → Cache.get c key now = (none, c)) := by
  refine ⟨?_, ?_, ?_⟩
  · intro e he hle
    simp only [Cache.get, he]
    rw [if_neg (by omega)]
  · intro e he hlt
    simp only [Cache.get, he]
    rw [if_pos (by omega)]
  · intro he
    simp only [Cache.get, he]

def c7Cache : Cache Nat :=
  { store := [("open-meteo:current:london", ⟨42, 1000⟩)],
    ttlCurrent := 300000, ttlForecast := 1800000, ttlGeocoding := 86400000 }

/-- C7 witness: a concrete fresh entry is returned and a concrete expired
entry is evicted. -/
theorem cache_get_spec_witness :
    Cache.get c7Cache ("open-meteo:current:london") 900 = (some 42, c7Cache) ∧
    Cache.get c7Cache ("open-meteo:current:london") 1500 =
      (none, { c7Cache with store := [] }) := by
  constructor
  · exact (cache_get_spec c7Cache ("open-meteo:current:london") 900).1 ⟨42, 1000⟩ rfl (by decide)
  · exact (cache_get_spec c7Cache ("open-meteo:current:london") 1500).2.1 ⟨42, 1000⟩ rfl (by decide)

/-! ### Claim C9 -/

theorem jsIsSpace_jsLowerChar (c : Char) : jsIsSpace (jsLowerChar c) = jsIsSpace c := by
  unfold jsLowerChar
  split
  · rename_i h
    have hvalid : (c.toNat + 32).isValidChar := Or.inl (by omega)
    have hv : (Char.ofNat (c.toNat + 32)).toNat = c.toNat + 32 := by
      have h1 : Char.ofNat (c.toNat + 32) = Char.ofNatAux (c.toNat + 32) hvalid :=
        dif_pos hvalid
      rw [h1]
      exact rfl
    simp only [jsIsSpace, hv, decide_eq_decide]
    omega
  · rfl

theorem jsTrim_jsToLowerCase (s : String) :
    jsTrim (jsToLowerCase s) = jsToLowerCase (jsTrim s) := by
  have hcomp : jsIsSpace ∘ jsLowerChar = jsIsSpace := funext jsIsSpace_jsLowerChar
  have hdw : ∀ l : List Char, (l.map jsLowerChar).dropWhile jsIsSpace =
      (l.dropWhile jsIsSpace).map jsLowerChar := by
    intro l
    rw [List.dropWhile_map, hcomp]
  unfold jsTrim jsToLowerCase
  simp only [hdw, ← List.map_reverse]

/-- C9: cache keys are insensitive to the location's letter casing and
leading/trailing whitespace: if two locations agree after trimming and
lower-casing, `createKey` produces the same key for any provider, category
and options discriminator. -/
theorem createKey_location_insensitive (provider method : String) (options : Option String)
    (s₁ s₂ : String) (h : jsToLowerCase (jsTrim s₁) = jsToLowerCase (jsTrim s₂)) :
    createKey provider method s₁ options = createKey provider method s₂ options := by
  unfold createKey
  rw [jsTrim_jsToLowerCase, jsTrim_jsToLowerCase, h]

/-- C9 witness: "London", " london " and "LONDON" map to the same key. -/
theorem createKey_location_insensitive_witness :
    (jsToLowerCase (jsTrim ("London")) = jsToLowerCase (jsTrim (" london "))
      ∧ createKey ("open-meteo") ("current") ("London") none =
        createKey ("open-meteo") ("current") (" london ") none) ∧
    (jsToLowerCase (jsTrim ("London")) = jsToLowerCase (jsTrim ("LONDON"))
      ∧ createKey ("open-meteo") ("current") ("London") none =
        createKey ("open-meteo") ("current") ("LONDON") none) :=
  ⟨⟨by decide, createKey_location_insensitive ("open-meteo") ("current") none
      ("London") (" london ") (by decide)⟩,
   ⟨by decide, createKey_location_insensitive ("open-meteo") ("current") none
      ("London") ("LONDON") (by decide)⟩⟩

/-! ### Orchestrator entry points -/

/-- Options for current-weather requests: `raw` models the truthiness of
`options?.raw`. -/
structure CurrentWeatherOptions where
  raw : Bool
deriving DecidableEq

/-- Left-pad a numeral string with zeros to the given width. -/
def padZeros (width : Nat) (m : Nat) : String :=
  let s := toString m
  ⟨List.replicate (width - s.length) '0'⟩ ++ s

/-- JS `Number.prototype.toFixed(4)` on an exact rational: round to the
nearest multiple of 1/10000, half away from zero toward the larger value,
and print with exactly four decimals. -/
def jsToFixed4 (q : ℚ) : String :=
  let n : ℤ := ⌊q * 10000 + 1/2⌋
  let sign := if n < 0 then ("-") else ("")
  let m := n.natAbs
  sign ++ toString (m / 10000) ++ (".") ++ padZeros 4 (m % 10000)

/-- Translation of `LotusWeather.getCurrentWeather` (orchestrator, lines
310-348).  The cache (`none` when caching is disabled), the clock, the
primary provider id string and the fallback configuration are explicit; the
pair of provider outcomes is the `op` function as in `executeWithFallback`.
Returns the call outcome together with the trace of providers invoked and
the cache state after the call. -/
def getCurrentWeather {V : Type} (cache : Option (Cache V)) (now : Int)
    (primaryProviderType : String) (hasFallback : Bool) (city : String)
    (opts : CurrentWeatherOptions) (op : ProviderTag → Except Caught V) :
    (Except WeatherError V × List ProviderTag) × Option (Cache V) :=
  if opts.raw then
    (executeWithFallback hasFallback op ("getCurrentWeather"), cache)
  else
    let key := createKey primaryProviderType ("current") city none
    match cache with
    | none => (executeWithFallback hasFallback op ("getCurrentWeather"), none)
    | some c =>
      match Cache.get c key now with
      | (some v, c₁) => ((.ok v, []), some c₁)
      | (none, c₁) =>
        match executeWithFallback hasFallback op ("getCurrentWeather") with
        | (.ok v, trace) => ((.ok v, trace), some (Cache.set c₁ key v .current now))
        | r => (r, some c₁)

/-- Translation of `LotusWeather.getWeatherByCoords` (orchestrator, lines
357-400); the cache key uses the coordinates formatted to 4 decimal places. -/
def getWeatherByCoords {V : Type} (cache : Option (Cache V)) (now : Int)
    (primaryProviderType : String) (hasFallback : Bool) (lat lon : ℚ)
    (opts : CurrentWeatherOptions) (op : ProviderTag → Except Caught V) :
    (Except WeatherError V × List ProviderTag) × Option (Cache V) :=
  if opts.raw then
    (executeWithFallback hasFallback op ("getWeatherByCoords"), cache)
  else
    let key := createKey primaryProviderType ("current")
      (jsToFixed4 lat ++ (",") ++ jsToFixed4 lon) none
    match cache with
    | none => (executeWithFallback hasFallback op ("getWeatherByCoords"), none)
    | some c =>
      match Cache.get c key now with
      | (some v, c₁) => ((.ok v, []), some c₁)
      | (none, c₁) =>
        match executeWithFallback hasFallback op ("getWeatherByCoords") with
        | (.ok v, trace) => ((.ok v, trace), some (Cache.set c₁ key v .current now))
        | r => (r, some c₁)

/-! ### Claim C8 -/

/-- C8: raw-mode current-weather requests (by city and by coordinates)
bypass the cache entirely: the cache state is returned unchanged and the
outcome is exactly the fallback-aware fetch result, independent of the
cache contents. -/
theorem raw_mode_bypasses_cache {V : Type} (cache : Option (Cache V)) (now : Int)
    (pt : String) (hasFallback : Bool) (city : String) (lat lon : ℚ)
    (opts : CurrentWeatherOptions) (op : ProviderTag → Except Caught V)
    (hraw : opts.raw = true) :
    getCurrentWeather cache now pt hasFallback city opts op =
      (executeWithFallback hasFallback op ("getCurrentWeather"), cache) ∧
    getWeatherByCoords cache now pt hasFallback lat lon opts op =
      (executeWithFallback hasFallback op ("getWeatherByCoords"), cache) := by
  constructor
  · unfold getCurrentWeather
    rw [if_pos hraw]
  · unfold getWeatherByCoords
    rw [if_pos hraw]

def c8Cache : Cache Nat :=
  { store := [("open-meteo:current:london", ⟨7, 10000000⟩)],
    ttlCurrent := 300000, ttlForecast := 1800000, ttlGeocoding := 86400000 }

def c8Op : ProviderTag → Except Caught Nat
  | .primary => .ok 99
  | .fallback => .ok 100

/-- C8 witness: with a populated cache holding a fresh entry for the same
city, a raw request still fetches from the provider and leaves the cache
untouched. -/
theorem raw_mode_bypasses_cache_witness :
    getCurrentWeather (some c8Cache) 0 ("open-meteo") false ("London") ⟨true⟩ c8Op =
      (executeWithFallback false c8Op ("getCurrentWeather"), some c8Cache) ∧
    getWeatherByCoords (some c8Cache) 0 ("open-meteo") false (51.5) (-0.1) ⟨true⟩ c8Op =
      (executeWithFallback false c8Op ("getWeatherByCoords"), some c8Cache) :=
  raw_mode_bypasses_cache (some c8Cache) 0 ("open-meteo") false ("London")
    (51.5) (-0.1) ⟨true⟩ c8Op rfl

/-! ### OpenWeather provider: data model and normalization -/

/-- Two-digit zero-padded field. -/
def pad2 (n : Nat) : String := padZeros 2 n

/-- Civil date (proleptic Gregorian) from days since the Unix epoch, as
computed by `Date.prototype.toISOString`. -/
def civilFromDays (day : Int) : Int × Nat × Nat :=
  let z := day + 719468
  let era : Int := Int.fdiv z 146097
  let doe : Nat := (z - era * 146097).toNat
  let yoe : Nat := (doe - doe / 1460 + doe / 36524 - doe / 146096) / 365
  let y : Int := (yoe : Int) + era * 400
  let doy : Nat := doe - (365 * yoe + yoe / 4 - yoe / 100)
  let mp : Nat := (5 * doy + 2) / 153
  let d : Nat := doy - (153 * mp + 2) / 5 + 1
  let m : Nat := if mp < 10 then mp + 3 else mp - 9
  (if m ≤ 2 then y + 1 else y, m, d)

/-- `new Date(ms).toISOString().slice(0, 16)`: minute-precision ISO-8601
UTC timestamp (years rendered with four digits). -/
def epochMillisToIsoMinute (ms : Int) : String :=
  let day : Int := Int.fdiv ms 86400000
  let msOfDay : Nat := (ms - day * 86400000).toNat
  let hh := msOfDay / 3600000
  let mi := msOfDay % 3600000 / 60000
  let ymd := civilFromDays day
  padZeros 4 ymd.1.toNat ++ ("-") ++ pad2 ymd.2.1 ++ ("-") ++ pad2 ymd.2.2
    ++ ("T") ++ pad2 hh ++ (":") ++ pad2 mi

/-- Decimal digits of a fraction in `[0, 1)`, most significant first, up to
`fuel` digits, stopping at zero (exact for the terminating decimals that
arise from timezone offsets). -/
def fracDigits : ℚ → Nat → List Char
  | _, 0 => []
  | f, fuel + 1 =>
    if f = 0 then []
    else
      let d : ℤ := ⌊f * 10⌋
      Char.ofNat (48 + d.toNat) :: fracDigits (f * 10 - (d : ℚ)) fuel

/-- JS number-to-string conversion on the rationals occurring here
(template-literal interpolation of the timezone offset in hours). -/
def qToDecimalString (q : ℚ) : String :=
  let sign := if q < 0 then ("-") else ("")
  let a := |q|
  let ip : Nat := (⌊a⌋).toNat
  let ds := fracDigits (a - (⌊a⌋ : ℚ)) 10
  sign ++ toString ip ++ (if ds.isEmpty then ("") else (".") ++ String.mk ds)

structure OWWind where
  speed : ℚ
  deg : ℚ
  gust : Option ℚ
deriving DecidableEq

structure OWMain where
  temp : ℚ
  feels_like : ℚ
  temp_min : ℚ
  temp_max : ℚ
  pressure : ℚ
  humidity : ℚ
  sea_level : Option ℚ
  grnd_level : Option ℚ
deriving DecidableEq

structure OWSys where
  country : String
  sunrise : Int
  sunset : Int
deriving DecidableEq

/-- The upstream body of OpenWeather's current-weather endpoint, restricted
to the fields the provider reads; `weather` is the array of condition
descriptions (`weather[i].description`, the only member accessed). -/
structure OpenWeatherCurrentResponse where
  name : String
  weather : List String
  main : OWMain
  visibility : ℚ
  wind : OWWind
  clouds : ℚ
  dt : Int
  sys : OWSys
  timezone : Int
deriving DecidableEq

structure CurrentWeatherUnits where
  temperature : String
  windSpeed : String
  windDirection : String
  pressure : Option String
  humidity : Option String
  visibility : Option String
deriving DecidableEq

/-- The normalized current-weather superset schema (`CurrentWeather` in
src types): provider-specific fields are optional. -/
structure CurrentWeather where
  city : String
  temperature : ℚ
  description : String
  windSpeed : ℚ
  windDirection : ℚ
  isDay : Bool
  timezone : String
  timezoneAbbreviation : String
  time : String
  units : CurrentWeatherUnits
  elevation : Option ℚ
  feelsLike : Option ℚ
  humidity : Option ℚ
  pressure : Option ℚ
  visibility : Option ℚ
  clouds : Option ℚ
  windGust : Option ℚ
  sunrise : Option String
  sunset : Option String
  country : Option String
  seaLevelPressure : Option ℚ
  groundLevelPressure : Option ℚ
deriving DecidableEq

namespace OpenWeatherProvider

/-- Translation of `OpenWeatherProvider.mapToCurrentWeather` (provider,
lines 226-277).  The two `?:` tests on the gust are JS truthiness tests, so
a zero gust falls to `undefined`. -/
def mapToCurrentWeather (data : OpenWeatherCurrentResponse) : CurrentWeather :=
  let now := data.dt * 1000
  let sunrise := data.sys.sunrise * 1000
  let sunset := data.sys.sunset * 1000
  let isDay := decide (sunrise ≤ now ∧ now < sunset)
  let offsetHours : ℚ := (data.timezone : ℚ) / 3600
  let sign := if 0 ≤ offsetHours then ("+") else ("")
  let timezoneAbbrev := ("UTC") ++ sign ++ qToDecimalString offsetHours
  let windSpeedKmh := data.wind.speed * (3.6 : ℚ)
  let windGustKmh : Option ℚ :=
    match data.wind.gust with
    | some g => if g ≠ 0 then some (g * (3.6 : ℚ)) else none
    | none => none
  { city := data.name
    temperature := data.main.temp
    description := data.weather.headD ("")
    windSpeed := round1 windSpeedKmh
    windDirection := data.wind.deg
    isDay := isDay
    timezone := timezoneAbbrev
    timezoneAbbreviation := timezoneAbbrev
    time := epochMillisToIsoMinute now
    units := ⟨("°C"), ("km/h"), ("°"), some ("hPa"), some ("%"), some ("m")⟩
    elevation := none
    feelsLike := some data.main.feels_like
    humidity := some data.main.humidity
    pressure := some data.main.pressure
    visibility := some data.visibility
    clouds := some data.clouds
    windGust :=
      match windGustKmh with
      | some k => if k ≠ 0 then some (round1 k) else none
      | none => none
    sunrise := some (epochMillisToIsoMinute sunrise)
    sunset := some (epochMillisToIsoMinute sunset)
    country := some data.sys.country
    seaLevelPressure := data.main.sea_level
    groundLevelPressure := data.main.grnd_level }

/-- The `Error` thrown by the provider when raw mode is requested. -/
def rawModeError : ErrObj :=
  ⟨true, false, "Raw mode is only supported for Open-Meteo provider", none, none, false⟩

/-- Translation of `OpenWeatherProvider.getCurrentWeatherByCity` (provider,
lines 176-192).  The outcome of the awaited upstream call is an explicit
argument; as in the source, the call is awaited BEFORE raw mode is
rejected, so a failed call propagates its own error. -/
def getCurrentWeatherByCity (net : Except ErrObj OpenWeatherCurrentResponse)
    (opts : CurrentWeatherOptions) : Except Caught CurrentWeather :=
  match net with
  | .error e => .error (.obj e)
  | .ok resp =>
    if opts.raw then .error (.obj rawModeError)
    else .ok (mapToCurrentWeather resp)

/-- Translation of `OpenWeatherProvider.getCurrentWeatherByCoords`
(provider, lines 200-220); same shape as the by-city variant. -/
def getCurrentWeatherByCoords (net : Except ErrObj OpenWeatherCurrentResponse)
    (opts : CurrentWeatherOptions) : Except Caught CurrentWeather :=
  match net with
  | .error e => .error (.obj e)
  | .ok resp =>
    if opts.raw then .error (.obj rawModeError)
    else .ok (mapToCurrentWeather resp)

end OpenWeatherProvider

/-! ### Claim C1 -/

def c1NetErr : ErrObj :=
  ⟨true, false, "connect ECONNREFUSED 127.0.0.1:443", none, some ("ECONNREFUSED"), true⟩

/-- C1 counterexample: a raw-mode current-weather request against the
OpenWeather provider whose network call fails raises the network error, not
the usage error — the usage error is not evaluated before or independently
of the network call. -/
theorem C1_counterexample :
    OpenWeatherProvider.getCurrentWeatherByCity (.error c1NetErr) ⟨true⟩ =
      .error (.obj c1NetErr) ∧
    Caught.obj c1NetErr ≠ .obj OpenWeatherProvider.rawModeError :=
  ⟨rfl, by decide⟩

/-- C1 (amended): the upstream call is awaited first; when it succeeds, a
raw-mode request against OpenWeather fails with the usage error (by city
and by coordinates alike), and when the network call fails, the network
error is raised instead even in raw mode. -/
theorem C1_raw_mode_usage_error (opts : CurrentWeatherOptions)
    (resp : OpenWeatherCurrentResponse) (e : ErrObj) (hraw : opts.raw = true) :
    OpenWeatherProvider.getCurrentWeatherByCity (.ok resp) opts =
      .error (.obj OpenWeatherProvider.rawModeError) ∧
    OpenWeatherProvider.getCurrentWeatherByCoords (.ok resp) opts =
      .error (.obj OpenWeatherProvider.rawModeError) ∧
    OpenWeatherProvider.getCurrentWeatherByCity (.error e) opts = .error (.obj e) ∧
    OpenWeatherProvider.getCurrentWeatherByCoords (.error e) opts = .error (.obj e) := by
  unfold OpenWeatherProvider.getCurrentWeatherByCity OpenWeatherProvider.getCurrentWeatherByCoords
  rw [hraw]
  exact ⟨rfl, rfl, rfl, rfl⟩

def c1Resp : OpenWeatherCurrentResponse :=
  { name := "London", weather := ["clear sky"],
    main := ⟨7, 6, 5, 9, 1012, 81, none, none⟩,
    visibility := 10000, wind := ⟨5, 350, none⟩, clouds := 0,
    dt := 1700000000, sys := ⟨("GB"), 1699900000, 1700100000⟩, timezone := 0 }

/-- C1 witness: the amended statement at a concrete response and error. -/
theorem C1_raw_mode_usage_error_witness :
    OpenWeatherProvider.getCurrentWeatherByCity (.ok c1Resp) ⟨true⟩ =
      .error (.obj OpenWeatherProvider.rawModeError) ∧
    OpenWeatherProvider.getCurrentWeatherByCoords (.ok c1Resp) ⟨true⟩ =
      .error (.obj OpenWeatherProvider.rawModeError) ∧
    OpenWeatherProvider.getCurrentWeatherByCity (.error c1NetErr) ⟨true⟩ =
      .error (.obj c1NetErr) ∧
    OpenWeatherProvider.getCurrentWeatherByCoords (.error c1NetErr) ⟨true⟩ =
      .error (.obj c1NetErr) :=
  C1_raw_mode_usage_error ⟨true⟩ c1Resp c1NetErr rfl

/-! ### Claim C6 -/

/-- C6 (amended): the normalized `windSpeed` always equals the upstream m/s
speed × 3.6 rounded to 1 decimal; `windGust` equals the gust × 3.6 rounded
to 1 decimal whenever a NONZERO gust is present in the body, and is absent
when the gust is absent or zero (the JS truthiness test drops a zero
gust). -/
theorem C6_wind_conversion (data : OpenWeatherCurrentResponse) :
    (OpenWeatherProvider.mapToCurrentWeather data).windSpeed =
      round1 (data.wind.speed * (3.6 : ℚ)) ∧
    (∀ g, data.wind.gust = some g → g ≠ 0 →
      (OpenWeatherProvider.mapToCurrentWeather data).windGust =
        some (round1 (g * (3.6 : ℚ)))) ∧
    ((data.wind.gust = none ∨ data.wind.gust = some 0) →
      (OpenWeatherProvider.mapToCurrentWeather data).windGust = none) := by
  refine ⟨rfl, ?_, ?_⟩
  · intro g hg hne
    have h36 : g * (3.6 : ℚ) ≠ 0 := mul_ne_zero hne (by norm_num)
    simp [OpenWeatherProvider.mapToCurrentWeather, hg, hne, h36]
  · rintro (h | h) <;> simp [OpenWeatherProvider.mapToCurrentWeather, h]

def c6Resp : OpenWeatherCurrentResponse :=
  { name := "London", weather := ["clear sky"],
    main := ⟨7, 6, 5, 9, 1012, 81, none, none⟩,
    visibility := 10000, wind := ⟨5, 350, some 9⟩, clouds := 0,
    dt := 1700000000, sys := ⟨("GB"), 1699900000, 1700100000⟩, timezone := 0 }

/-- C6 witness: an upstream speed of 5 m/s yields 18 km/h, and a gust of
9 m/s yields 32.4 km/h. -/
theorem C6_wind_conversion_witness :
    (OpenWeatherProvider.mapToCurrentWeather c6Resp).windSpeed = 18 ∧
    (OpenWeatherProvider.mapToCurrentWeather c6Resp).windGust =
      some (round1 (9 * (3.6 : ℚ))) :=
  ⟨(C6_wind_conversion c6Resp).1.trans
      (by norm_num [c6Resp, round1, jsRound, Rat.floor_def']),
   (C6_wind_conversion c6Resp).2.1 9 rfl (by norm_num)⟩

def c6ZeroGustResp : OpenWeatherCurrentResponse :=
  { name := "London", weather := ["clear sky"],
    main := ⟨7, 6, 5, 9, 1012, 81, none, none⟩,
    visibility := 10000, wind := ⟨5, 350, some 0⟩, clouds := 0,
    dt := 1700000000, sys := ⟨("GB"), 1699900000, 1700100000⟩, timezone := 0 }

/-- C6 counterexample: the upstream body contains a gust value of 0, but the
normalized `windGust` is absent rather than the claimed converted value. -/
theorem C6_counterexample :
    c6ZeroGustResp.wind.gust = some 0 ∧
    (OpenWeatherProvider.mapToCurrentWeather c6ZeroGustResp).windGust ≠
      some (round1 (0 * (3.6 : ℚ))) := by
  refine ⟨rfl, ?_⟩
  have h : (OpenWeatherProvider.mapToCurrentWeather c6ZeroGustResp).windGust = none := by
    simp [OpenWeatherProvider.mapToCurrentWeather, c6ZeroGustResp]
  rw [h]
  simp

/-! ### OpenWeather forecast aggregation -/

/-- One 3-hour sample of the OpenWeather forecast list, restricted to the
fields the aggregation reads; `rain3h`/`snow3h` model the optional
3-hour accumulations, `description` models the first condition entry. -/
structure ForecastSample where
  dt_txt : String
  temp : ℚ
  feels_like : ℚ
  humidity : ℚ
  pressure : ℚ
  windSpeed : ℚ
  clouds : ℚ
  pop : ℚ
  rain3h : Option ℚ
  snow3h : Option ℚ
  description : String
deriving DecidableEq

/-- The date portion of a sample: everything before the first space of its
date-time text. -/
def sampleDate (s : ForecastSample) : String :=
  ⟨s.dt_txt.data.takeWhile (fun c => c ≠ ' ')⟩

/-- The per-day accumulation record (`DayAggregate`). -/
structure DayAggregate where
  temps : List ℚ
  feelsLike : List ℚ
  humidity : List ℚ
  pressure : List ℚ
  windSpeed : List ℚ
  clouds : List ℚ
  pop : List ℚ
  rain : List ℚ
  snow : List ℚ
  descriptions : List String
deriving DecidableEq

def emptyAgg : DayAggregate := ⟨[], [], [], [], [], [], [], [], [], []⟩

/-- The per-sample pushes of the grouping loop (aggregation, lines
358-368): wind speed converted ×3.6, pop scaled ×100, absent rain/snow
defaulted to 0. -/
def pushSample (g : DayAggregate) (s : ForecastSample) : DayAggregate :=
  { temps := g.temps ++ [s.temp]
    feelsLike := g.feelsLike ++ [s.feels_like]
    humidity := g.humidity ++ [s.humidity]
    pressure := g.pressure ++ [s.pressure]
    windSpeed := g.windSpeed ++ [s.windSpeed * (3.6 : ℚ)]
    clouds := g.clouds ++ [s.clouds]
    pop := g.pop ++ [s.pop * 100]
    rain := g.rain ++ [s.rain3h.getD 0]
    snow := g.snow ++ [s.snow3h.getD 0]
    descriptions := g.descriptions ++ [s.description] }

/-- One step of the date-keyed `Map`: push into the existing group, or
append a fresh group at the end (JS `Map` preserves insertion order). -/
def insertSample (acc : List (String × DayAggregate)) (date : String)
    (s : ForecastSample) : List (String × DayAggregate) :=
  match acc with
  | [] => [(date, pushSample emptyAgg s)]
  | (d, g) :: rest =>
    if d = date then (d, pushSample g s) :: rest
    else (d, g) :: insertSample rest date s

/-- The grouping loop of `aggregateForecast` (lines 338-369). -/
def groupByDate (list : List ForecastSample) : List (String × DayAggregate) :=
  list.foldl (fun acc s => insertSample acc (sampleDate s) s) []

/-- The `avg` helper (lines 372-375): mean rounded to 1 decimal, 0 when
the list is empty. -/
def avgQ (l : List ℚ) : ℚ :=
  if 0 < l.length then round1 (l.sum / (l.length : ℚ)) else 0

/-- The `sum` helper (lines 378-379): sum rounded to 1 decimal. -/
def sumQ (l : List ℚ) : ℚ := round1 l.sum

/-- `Math.min(...arr)` on the (always nonempty) per-day lists; 0 stands in
for the `Infinity` of an empty spread, which the grouping never produces. -/
def listMin : List ℚ → ℚ
  | [] => 0
  | x :: xs => xs.foldl min x

/-- `Math.max(...arr)`, same conventions as `listMin`. -/
def listMax : List ℚ → ℚ
  | [] => 0
  | x :: xs => xs.foldl max x

/-- One step of the occurrence-count `Map` of `getMostFrequent`. -/
def bumpCount : List (String × Nat) → String → List (String × Nat)
  | [], d => [(d, 1)]
  | (k, n) :: rest, d =>
    if k = d then (k, n + 1) :: rest else (k, n) :: bumpCount rest d

namespace OpenWeatherProvider

/-- Translation of `getMostFrequent` (provider, lines 413-431): the first
encountered description among those of strictly greatest count; the
`descriptions[0]` of an empty list is modelled by the empty string
(unreachable: groups are nonempty). -/
def getMostFrequent (descriptions : List String) : String :=
  let counts := descriptions.foldl bumpCount []
  (counts.foldl
    (fun acc p => if p.2 > acc.1 then (p.2, p.1) else acc)
    (0, descriptions.headD (""))).2

end OpenWeatherProvider

/-- One daily summary (`ForecastDay`), OpenWeather variant with all the
aggregated optional metrics. -/
structure ForecastDay where
  date : String
  minTemp : ℚ
  maxTemp : ℚ
  description : String
  avgFeelsLike : ℚ
  avgHumidity : ℚ
  avgPressure : ℚ
  avgWindSpeed : ℚ
  avgClouds : ℚ
  maxPop : ℤ
  totalRain : Option ℚ
  totalSnow : Option ℚ
deriving DecidableEq

namespace OpenWeatherProvider

/-- The loop body building one `ForecastDay` (aggregation, lines 384-404):
rain/snow totals are present only when the rounded sum is positive. -/
def mkForecastDay (date : String) (g : DayAggregate) : ForecastDay :=
  let totalRain := sumQ g.rain
  let totalSnow := sumQ g.snow
  { date := date
    minTemp := listMin g.temps
    maxTemp := listMax g.temps
    description := getMostFrequent g.descriptions
    avgFeelsLike := avgQ g.feelsLike
    avgHumidity := avgQ g.humidity
    avgPressure := avgQ g.pressure
    avgWindSpeed := avgQ g.windSpeed
    avgClouds := avgQ g.clouds
    maxPop := jsRound (listMax g.pop)
    totalRain := if totalRain > 0 then some totalRain else none
    totalSnow := if totalSnow > 0 then some totalSnow else none }

/-- Translation of `OpenWeatherProvider.aggregateForecast` (provider, lines
333-407): group samples by date in first-encountered order, then emit at
most `days` daily summaries. -/
def aggregateForecast (list : List ForecastSample) (days : Nat) : List ForecastDay :=
  ((groupByDate list).take days).map (fun p => mkForecastDay p.1 p.2)

end OpenWeatherProvider

/-! ### Structural lemmas about the grouping -/

/-- Association-list lookup on the date-keyed map. -/
def lookupA : List (String × DayAggregate) → String → Option DayAggregate
  | [], _ => none
  | (k, g) :: rest, d => if k = d then some g else lookupA rest d

/-- Keys of the date-keyed map, in insertion order. -/
def keysOf (acc : List (String × DayAggregate)) : List String := acc.map Prod.fst

@[simp] theorem keysOf_nil : keysOf [] = [] := rfl

@[simp] theorem keysOf_cons (p : String × DayAggregate) (rest : List (String × DayAggregate)) :
    keysOf (p :: rest) = p.1 :: keysOf rest := rfl

theorem lookupA_insertSample (acc : List (String × DayAggregate)) (date : String)
    (s : ForecastSample) (d : String) :
    lookupA (insertSample acc date s) d =
      if d = date then some (pushSample ((lookupA acc d).getD emptyAgg) s)
      else lookupA acc d := by
  induction acc with
  | nil =>
    by_cases h : d = date
    · subst h; simp [insertSample, lookupA]
    · simp [insertSample, lookupA, h, Ne.symm h]
  | cons p rest ih =>
    obtain ⟨k, g⟩ := p
    by_cases hk : k = date
    · subst hk
      by_cases hd : d = k
      · subst hd; simp [insertSample, lookupA]
      · simp [insertSample, lookupA, hd, Ne.symm hd]
    · by_cases hd : k = d
      · subst hd
        have hdd : ¬(k = date) := hk
        simp [insertSample, lookupA, hk, hdd]
      · simp [insertSample, lookupA, hk, hd, ih]

theorem lookupA_groupFold (l : List ForecastSample)
    (acc : List (String × DayAggregate)) (d : String) :
    lookupA (l.foldl (fun a s => insertSample a (sampleDate s) s) acc) d =
      if lookupA acc d = none ∧ l.filter (fun s => sampleDate s = d) = [] then none
      else some ((l.filter (fun s => sampleDate s = d)).foldl pushSample
        ((lookupA acc d).getD emptyAgg)) := by
  induction l generalizing acc with
  | nil =>
    cases h : lookupA acc d <;> simp [h]
  | cons s t ih =>
    rw [List.foldl_cons, ih]
    by_cases hd : sampleDate s = d
    · have hfl : (s :: t).filter (fun s => sampleDate s = d) =
          s :: t.filter (fun s => sampleDate s = d) := by
        simp [List.filter_cons, hd]
      rw [hfl, lookupA_insertSample, if_pos hd.symm]
      simp
    · have hfl : (s :: t).filter (fun s => sampleDate s = d) =
          t.filter (fun s => sampleDate s = d) := by
        simp [List.filter_cons, hd]
      rw [hfl, lookupA_insertSample, if_neg (Ne.symm hd)]

theorem lookupA_groupByDate (l : List ForecastSample) (d : String) :
    lookupA (groupByDate l) d =
      if l.filter (fun s => sampleDate s = d) = [] then none
      else some ((l.filter (fun s => sampleDate s = d)).foldl pushSample emptyAgg) := by
  have h := lookupA_groupFold l [] d
  simpa [groupByDate, lookupA] using h

theorem keysOf_insertSample (acc : List (String × DayAggregate)) (date : String)
    (s : ForecastSample) :
    keysOf (insertSample acc date s) =
      if date ∈ keysOf acc then keysOf acc else keysOf acc ++ [date] := by
  induction acc with
  | nil => simp [insertSample]
  | cons p rest ih =>
    obtain ⟨k, g⟩ := p
    by_cases hk : k = date
    · subst hk
      have hstep : insertSample ((k, g) :: rest) k s = (k, pushSample g s) :: rest := by
        simp [insertSample]
      rw [hstep]
      simp
    · have hne : ¬(date = k) := Ne.symm hk
      have hstep : insertSample ((k, g) :: rest) date s =
          (k, g) :: insertSample rest date s := by
        simp [insertSample, hk]
      rw [hstep]
      by_cases hm : date ∈ keysOf rest
      · simp [ih, hm, hne]
      · simp [ih, hm, hne]

theorem nodup_keysOf_groupFold (l : List ForecastSample)
    (acc : List (String × DayAggregate)) (h : (keysOf acc).Nodup) :
    (keysOf (l.foldl (fun a s => insertSample a (sampleDate s) s) acc)).Nodup := by
  induction l generalizing acc with
  | nil => exact h
  | cons s t ih =>
    rw [List.foldl_cons]
    apply ih
    rw [keysOf_insertSample]
    split
    · exact h
    · rename_i hmem
      simp [List.nodup_append, h, hmem]

theorem nodup_keysOf_groupByDate (l : List ForecastSample) :
    (keysOf (groupByDate l)).Nodup :=
  nodup_keysOf_groupFold l [] (by simp [keysOf])

theorem lookupA_of_mem_nodup (acc : List (String × DayAggregate)) (d : String)
    (g : DayAggregate) (hnd : (keysOf acc).Nodup) (hmem : (d, g) ∈ acc) :
    lookupA acc d = some g := by
  induction acc with
  | nil => cases hmem
  | cons p rest ih =>
    obtain ⟨k, g₀⟩ := p
    rw [keysOf_cons, List.nodup_cons] at hnd
    rcases List.mem_cons.1 hmem with heq | htail
    · cases heq
      simp [lookupA]
    · by_cases hk : k = d
      · subst hk
        exfalso
        apply hnd.1
        have hmm := List.mem_map_of_mem Prod.fst htail
        simpa [keysOf] using hmm
      · simp only [lookupA, if_neg hk]
        exact ih hnd.2 htail

theorem foldl_push_temps (fs : List ForecastSample) (g : DayAggregate) :
    (fs.foldl pushSample g).temps = g.temps ++ fs.map (fun s => s.temp) := by
  induction fs generalizing g with
  | nil => simp
  | cons s t ih => rw [List.foldl_cons, ih]; simp [pushSample]

theorem foldl_push_feelsLike (fs : List ForecastSample) (g : DayAggregate) :
    (fs.foldl pushSample g).feelsLike = g.feelsLike ++ fs.map (fun s => s.feels_like) := by
  induction fs generalizing g with
  | nil => simp
  | cons s t ih => rw [List.foldl_cons, ih]; simp [pushSample]

theorem foldl_push_humidity (fs : List ForecastSample) (g : DayAggregate) :
    (fs.foldl pushSample g).humidity = g.humidity ++ fs.map (fun s => s.humidity) := by
  induction fs generalizing g with
  | nil => simp
  | cons s t ih => rw [List.foldl_cons, ih]; simp [pushSample]

theorem foldl_push_pressure (fs : List ForecastSample) (g : DayAggregate) :
    (fs.foldl pushSample g).pressure = g.pressure ++ fs.map (fun s => s.pressure) := by
  induction fs generalizing g with
  | nil => simp
  | cons s t ih => rw [List.foldl_cons, ih]; simp [pushSample]

theorem foldl_push_windSpeed (fs : List ForecastSample) (g : DayAggregate) :
    (fs.foldl pushSample g).windSpeed =
      g.windSpeed ++ fs.map (fun s => s.windSpeed * (3.6 : ℚ)) := by
  induction fs generalizing g with
  | nil => simp
  | cons s t ih => rw [List.foldl_cons, ih]; simp [pushSample]

theorem foldl_push_clouds (fs : List ForecastSample) (g : DayAggregate) :
    (fs.foldl pushSample g).clouds = g.clouds ++ fs.map (fun s => s.clouds) := by
  induction fs generalizing g with
  | nil => simp
  | cons s t ih => rw [List.foldl_cons, ih]; simp [pushSample]

theorem foldl_push_pop (fs : List ForecastSample) (g : DayAggregate) :
    (fs.foldl pushSample g).pop = g.pop ++ fs.map (fun s => s.pop * 100) := by
  induction fs generalizing g with
  | nil => simp
  | cons s t ih => rw [List.foldl_cons, ih]; simp [pushSample]

theorem foldl_push_rain (fs : List ForecastSample) (g : DayAggregate) :
    (fs.foldl pushSample g).rain = g.rain ++ fs.map (fun s => s.rain3h.getD 0) := by
  induction fs generalizing g with
  | nil => simp
  | cons s t ih => rw [List.foldl_cons, ih]; simp [pushSample]

theorem foldl_push_snow (fs : List ForecastSample) (g : DayAggregate) :
    (fs.foldl pushSample g).snow = g.snow ++ fs.map (fun s => s.snow3h.getD 0) := by
  induction fs generalizing g with
  | nil => simp
  | cons s t ih => rw [List.foldl_cons, ih]; simp [pushSample]

/-! ### Min/max helper lemmas -/

theorem foldl_min_le_init (a : ℚ) (l : List ℚ) : l.foldl min a ≤ a := by
  induction l generalizing a with
  | nil => exact le_refl a
  | cons x t ih => exact le_trans (ih (min a x)) (min_le_left a x)

theorem foldl_min_le_mem (a : ℚ) (l : List ℚ) : ∀ y ∈ l, l.foldl min a ≤ y := by
  induction l generalizing a with
  | nil => intro y hy; cases hy
  | cons x t ih =>
    intro y hy
    rcases List.mem_cons.1 hy with rfl | hy
    · exact le_trans (foldl_min_le_init (min a y) t) (min_le_right a y)
    · exact ih (min a x) y hy

theorem foldl_min_mem (a : ℚ) (l : List ℚ) : l.foldl min a = a ∨ l.foldl min a ∈ l := by
  induction l generalizing a with
  | nil => exact Or.inl rfl
  | cons x t ih =>
    rcases ih (min a x) with h | h
    · rcases min_cases a x with ⟨hm, _⟩ | ⟨hm, _⟩
      · exact Or.inl (by rw [List.foldl_cons, h, hm])
      · exact Or.inr (by rw [List.foldl_cons, h, hm]; exact List.mem_cons_self x t)
    · exact Or.inr (List.mem_cons_of_mem x h)

theorem foldl_max_init_le (a : ℚ) (l : List ℚ) : a ≤ l.foldl max a := by
  induction l generalizing a with
  | nil => exact le_refl a
  | cons x t ih => exact le_trans (le_max_left a x) (ih (max a x))

theorem foldl_max_mem_le (a : ℚ) (l : List ℚ) : ∀ y ∈ l, y ≤ l.foldl max a := by
  induction l generalizing a with
  | nil => intro y hy; cases hy
  | cons x t ih =>
    intro y hy
    rcases List.mem_cons.1 hy with rfl | hy
    · exact le_trans (le_max_right a y) (foldl_max_init_le (max a y) t)
    · exact ih (max a x) y hy

theorem foldl_max_mem (a : ℚ) (l : List ℚ) : l.foldl max a = a ∨ l.foldl max a ∈ l := by
  induction l generalizing a with
  | nil => exact Or.inl rfl
  | cons x t ih =>
    rcases ih (max a x) with h | h
    · rcases max_cases a x with ⟨hm, _⟩ | ⟨hm, _⟩
      · exact Or.inl (by rw [List.foldl_cons, h, hm])
      · exact Or.inr (by rw [List.foldl_cons, h, hm]; exact List.mem_cons_self x t)
    · exact Or.inr (List.mem_cons_of_mem x h)

theorem listMin_mem (l : List ℚ) (h : l ≠ []) : listMin l ∈ l := by
  match l with
  | x :: xs =>
    rw [listMin]
    rcases foldl_min_mem x xs with hm | hm
    · rw [hm]; exact List.mem_cons_self x xs
    · exact List.mem_cons_of_mem x hm

theorem listMin_le (l : List ℚ) : ∀ y ∈ l, listMin l ≤ y := by
  match l with
  | [] => intro y hy; cases hy
  | x :: xs =>
    intro y hy
    rw [listMin]
    rcases List.mem_cons.1 hy with rfl | hy
    · exact foldl_min_le_init y xs
    · exact foldl_min_le_mem x xs y hy

theorem listMax_mem (l : List ℚ) (h : l ≠ []) : listMax l ∈ l := by
  match l with
  | x :: xs =>
    rw [listMax]
    rcases foldl_max_mem x xs with hm | hm
    · rw [hm]; exact List.mem_cons_self x xs
    · exact List.mem_cons_of_mem x hm

theorem listMax_ge (l : List ℚ) : ∀ y ∈ l, y ≤ listMax l := by
  match l with
  | [] => intro y hy; cases hy
  | x :: xs =>
    intro y hy
    rw [listMax]
    rcases List.mem_cons.1 hy with rfl | hy
    · exact foldl_max_init_le y xs
    · exact foldl_max_mem_le x xs y hy

theorem foldl_max_map_mul (c : ℚ) (hc : 0 ≤ c) (l : List ℚ) (a : ℚ) :
    (l.map (fun x => x * c)).foldl max (a * c) = (l.foldl max a) * c := by
  induction l generalizing a with
  | nil => rfl
  | cons x t ih =>
    rw [List.map_cons, List.foldl_cons, List.foldl_cons, ← max_mul_of_nonneg a x hc, ih]

theorem listMax_map_mul (l : List ℚ) (c : ℚ) (hc : 0 ≤ c) (h : l ≠ []) :
    listMax (l.map (fun x => x * c)) = listMax l * c := by
  match l with
  | x :: xs =>
    rw [List.map_cons, listMax, listMax, foldl_max_map_mul c hc]

/-! ### Claim C5 -/

/-- C5: every `ForecastDay` produced by the OpenWeather aggregation is
built from the (nonempty, in-order) group of samples sharing its date, with
`minTemp`/`maxTemp` the minimum/maximum of the group's temperatures, each
avg field the arithmetic mean of the per-sample values rounded to 1
decimal, `maxPop` the maximum per-sample precipitation probability scaled
×100 and rounded to the nearest integer, and `totalRain`/`totalSnow` the
rounded sums of the 3-hour accumulations, present exactly when positive. -/
theorem C5_aggregation_day_fields (l : List ForecastSample) (days : Nat)
    (fd : ForecastDay) (hmem : fd ∈ OpenWeatherProvider.aggregateForecast l days) :
    (l.filter (fun s => sampleDate s = fd.date)) ≠ [] ∧
    (fd.minTemp ∈ (l.filter (fun s => sampleDate s = fd.date)).map (fun s => s.temp) ∧
      ∀ t ∈ (l.filter (fun s => sampleDate s = fd.date)).map (fun s => s.temp),
        fd.minTemp ≤ t) ∧
    (fd.maxTemp ∈ (l.filter (fun s => sampleDate s = fd.date)).map (fun s => s.temp) ∧
      ∀ t ∈ (l.filter (fun s => sampleDate s = fd.date)).map (fun s => s.temp),
        t ≤ fd.maxTemp) ∧
    fd.avgFeelsLike = round1
      (((l.filter (fun s => sampleDate s = fd.date)).map (fun s => s.feels_like)).sum /
        ((l.filter (fun s => sampleDate s = fd.date)).length : ℚ)) ∧
    fd.avgHumidity = round1
      (((l.filter (fun s => sampleDate s = fd.date)).map (fun s => s.humidity)).sum /
        ((l.filter (fun s => sampleDate s = fd.date)).length : ℚ)) ∧
    fd.avgPressure = round1
      (((l.filter (fun s => sampleDate s = fd.date)).map (fun s => s.pressure)).sum /
        ((l.filter (fun s => sampleDate s = fd.date)).length : ℚ)) ∧
    fd.avgWindSpeed = round1
      (((l.filter (fun s => sampleDate s = fd.date)).map
          (fun s => s.windSpeed * (3.6 : ℚ))).sum /
        ((l.filter (fun s => sampleDate s = fd.date)).length : ℚ)) ∧
    fd.avgClouds = round1
      (((l.filter (fun s => sampleDate s = fd.date)).map (fun s => s.clouds)).sum /
        ((l.filter (fun s => sampleDate s = fd.date)).length : ℚ)) ∧
    (∃ p, p ∈ (l.filter (fun s => sampleDate s = fd.date)).map (fun s => s.pop) ∧
      (∀ q ∈ (l.filter (fun s => sampleDate s = fd.date)).map (fun s => s.pop), q ≤ p) ∧
      fd.maxPop = jsRound (p * 100)) ∧
    fd.totalRain = (if
        round1 (((l.filter (fun s => sampleDate s = fd.date)).map
          (fun s => s.rain3h.getD 0)).sum) > 0
      then some (round1 (((l.filter (fun s => sampleDate s = fd.date)).map
          (fun s => s.rain3h.getD 0)).sum))
      else none) ∧
    fd.totalSnow = (if
        round1 (((l.filter (fun s => sampleDate s = fd.date)).map
          (fun s => s.snow3h.getD 0)).sum) > 0
      then some (round1 (((l.filter (fun s => sampleDate s = fd.date)).map
          (fun s => s.snow3h.getD 0)).sum))
      else none) := by
  obtain ⟨⟨d, g⟩, hp, rfl⟩ := List.mem_map.1 hmem
  have hdate : (OpenWeatherProvider.mkForecastDay d g).date = d := rfl
  rw [hdate]
  have hsub : (d, g) ∈ groupByDate l := List.take_subset days (groupByDate l) hp
  have hlk := lookupA_of_mem_nodup (groupByDate l) d g (nodup_keysOf_groupByDate l) hsub
  rw [lookupA_groupByDate] at hlk
  by_cases hfil : l.filter (fun s => sampleDate s = d) = []
  · rw [if_pos hfil] at hlk; cases hlk
  · rw [if_neg hfil] at hlk
    injection hlk with hg
    have htemps : g.temps = (l.filter (fun s => sampleDate s = d)).map (fun s => s.temp) := by
      rw [← hg, foldl_push_temps]; rfl
    have hfeels : g.feelsLike =
        (l.filter (fun s => sampleDate s = d)).map (fun s => s.feels_like) := by
      rw [← hg, foldl_push_feelsLike]; rfl
    have hhum : g.humidity =
        (l.filter (fun s => sampleDate s = d)).map (fun s => s.humidity) := by
      rw [← hg, foldl_push_humidity]; rfl
    have hpress : g.pressure =
        (l.filter (fun s => sampleDate s = d)).map (fun s => s.pressure) := by
      rw [← hg, foldl_push_pressure]; rfl
    have hwind : g.windSpeed =
        (l.filter (fun s => sampleDate s = d)).map (fun s => s.windSpeed * (3.6 : ℚ)) := by
      rw [← hg, foldl_push_windSpeed]; rfl
    have hclouds : g.clouds =
        (l.filter (fun s => sampleDate s = d)).map (fun s => s.clouds) := by
      rw [← hg, foldl_push_clouds]; rfl
    have hpop : g.pop =
        (l.filter (fun s => sampleDate s = d)).map (fun s => s.pop * 100) := by
      rw [← hg, foldl_push_pop]; rfl
    have hrain : g.rain =
        (l.filter (fun s => sampleDate s = d)).map (fun s => s.rain3h.getD 0) := by
      rw [← hg, foldl_push_rain]; rfl
    have hsnow : g.snow =
        (l.filter (fun s => sampleDate s = d)).map (fun s => s.snow3h.getD 0) := by
      rw [← hg, foldl_push_snow]; rfl
    have hmapne : (l.filter (fun s => sampleDate s = d)).map (fun s => s.temp) ≠ [] := by
      simpa [List.map_eq_nil_iff] using hfil
    have hpopne : (l.filter (fun s => sampleDate s = d)).map (fun s => s.pop) ≠ [] := by
      simpa [List.map_eq_nil_iff] using hfil
    have hlen : 0 < (l.filter (fun s => sampleDate s = d)).length :=
      List.length_pos.2 hfil
    refine ⟨hfil, ⟨?_, ?_⟩, ⟨?_, ?_⟩, ?_, ?_, ?_, ?_, ?_, ?_, ?_, ?_⟩
    · show listMin g.temps ∈ _
      rw [htemps]
      exact listMin_mem _ hmapne
    · intro t ht
      show listMin g.temps ≤ t
      rw [htemps]
      exact listMin_le _ t (htemps ▸ ht)
    · show listMax g.temps ∈ _
      rw [htemps]
      exact listMax_mem _ hmapne
    · intro t ht
      show t ≤ listMax g.temps
      rw [htemps]
      exact listMax_ge _ t (htemps ▸ ht)
    · show avgQ g.feelsLike = _
      rw [avgQ, hfeels, if_pos (by simpa using hlen)]
      simp
    · show avgQ g.humidity = _
      rw [avgQ, hhum, if_pos (by simpa using hlen)]
      simp
    · show avgQ g.pressure = _
      rw [avgQ, hpress, if_pos (by simpa using hlen)]
      simp
    · show avgQ g.windSpeed = _
      rw [avgQ, hwind, if_pos (by simpa using hlen)]
      simp
    · show avgQ g.clouds = _
      rw [avgQ, hclouds, if_pos (by simpa using hlen)]
      simp
    · refine ⟨listMax ((l.filter (fun s => sampleDate s = d)).map (fun s => s.pop)),
        listMax_mem _ hpopne, listMax_ge _, ?_⟩
      show jsRound (listMax g.pop) = _
      have hmm : (l.filter (fun s => sampleDate s = d)).map (fun s => s.pop * 100) =
          ((l.filter (fun s => sampleDate s = d)).map (fun s => s.pop)).map
            (fun x => x * 100) := by
        rw [List.map_map]
        rfl
      rw [hpop, hmm, listMax_map_mul _ 100 (by norm_num) hpopne]
    · show (if sumQ g.rain > 0 then some (sumQ g.rain) else none) = _
      rw [sumQ, hrain]
    · show (if sumQ g.snow > 0 then some (sumQ g.snow) else none) = _
      rw [sumQ, hsnow]

def c5s1 : ForecastSample :=
  ⟨"2024-01-01 00:00:00", 10, 9, 80, 1000, 5, 20, 0.2, none, none, "rain"⟩

def c5s2 : ForecastSample :=
  ⟨"2024-01-01 03:00:00", 12, 11, 90, 1010, 5, 40, 0.5, some 1.2, none, "rain"⟩

def c5list : List ForecastSample := [c5s1, c5s2]

def c5fd : ForecastDay :=
  OpenWeatherProvider.mkForecastDay ("2024-01-01")
    (pushSample (pushSample emptyAgg c5s1) c5s2)

/-- C5 witness: a concrete one-day group of two samples. -/
theorem C5_aggregation_day_fields_witness :
    c5fd ∈ OpenWeatherProvider.aggregateForecast c5list 5 ∧
    (c5list.filter (fun s => sampleDate s = c5fd.date)) ≠ [] ∧
    c5fd.minTemp ∈ (c5list.filter (fun s => sampleDate s = c5fd.date)).map
      (fun s => s.temp) := by
  have hmem : c5fd ∈ OpenWeatherProvider.aggregateForecast c5list 5 := by
    have h : OpenWeatherProvider.aggregateForecast c5list 5 = [c5fd] := rfl
    rw [h]
    exact List.mem_singleton.2 rfl
  have h := C5_aggregation_day_fields c5list 5 c5fd hmem
  exact ⟨hmem, h.1, h.2.1.1⟩

/-! ### Claim C10 -/

/-- C10: for a non-empty sample list and any requested day count, the
aggregation emits at most `days` entries, the emitted dates are pairwise
distinct, and every entry satisfies `minTemp <= maxTemp`. -/
theorem C10_aggregation_invariants (l : List ForecastSample) (days : Nat)
    (hne : l ≠ []) :
    (OpenWeatherProvider.aggregateForecast l days).length ≤ days ∧
    ((OpenWeatherProvider.aggregateForecast l days).map (fun fd => fd.date)).Nodup ∧
    ∀ fd ∈ OpenWeatherProvider.aggregateForecast l days, fd.minTemp ≤ fd.maxTemp := by
  refine ⟨?_, ?_, ?_⟩
  · rw [OpenWeatherProvider.aggregateForecast, List.length_map]
    exact List.length_take_le days (groupByDate l)
  · rw [OpenWeatherProvider.aggregateForecast, List.map_map]
    have hh : ((fun fd => fd.date) ∘ fun p : String × DayAggregate =>
        OpenWeatherProvider.mkForecastDay p.1 p.2) = Prod.fst := rfl
    rw [hh]
    have hnd := nodup_keysOf_groupByDate l
    rw [keysOf] at hnd
    have hsl : ((groupByDate l).take days).map Prod.fst =
        ((groupByDate l).map Prod.fst).take days := List.map_take ..
    rw [hsl]
    exact hnd.sublist (List.take_sublist days _)
  · intro fd hmem
    obtain ⟨⟨d, g⟩, hp, rfl⟩ := List.mem_map.1 hmem
    have hsub : (d, g) ∈ groupByDate l := List.take_subset days (groupByDate l) hp
    have hlk := lookupA_of_mem_nodup (groupByDate l) d g (nodup_keysOf_groupByDate l) hsub
    rw [lookupA_groupByDate] at hlk
    by_cases hfil : l.filter (fun s => sampleDate s = d) = []
    · rw [if_pos hfil] at hlk; cases hlk
    · rw [if_neg hfil] at hlk
      injection hlk with hg
      have htemps : g.temps =
          (l.filter (fun s => sampleDate s = d)).map (fun s => s.temp) := by
        rw [← hg, foldl_push_temps]; rfl
      have hmapne : (l.filter (fun s => sampleDate s = d)).map (fun s => s.temp) ≠ [] := by
        simpa [List.map_eq_nil_iff] using hfil
      show listMin g.temps ≤ listMax g.temps
      rw [htemps]
      exact le_trans (listMin_le _ _ (listMax_mem _ hmapne)) (le_refl _)

def c10list : List ForecastSample :=
  [⟨"2024-02-10 00:00:00", 3, 2, 70, 1020, 4, 10, 0, none, none, "mist"⟩,
   ⟨"2024-02-11 00:00:00", 6, 5, 60, 1015, 3, 0, 0.1, none, some 0.4, "snow"⟩]

/-- C10 witness: the invariants at a concrete two-day sample list. -/
theorem C10_aggregation_invariants_witness :
    (OpenWeatherProvider.aggregateForecast c10list 5).length ≤ 5 ∧
    ((OpenWeatherProvider.aggregateForecast c10list 5).map (fun fd => fd.date)).Nodup ∧
    ∀ fd ∈ OpenWeatherProvider.aggregateForecast c10list 5, fd.minTemp ≤ fd.maxTemp :=
  C10_aggregation_invariants c10list 5 (List.cons_ne_nil _ _)

end LotusWeather
